import Mathlib

/-!
Shallow embedding of the client-side operation-orchestration layer of the
SmartPhotoOrganizer Electron/React frontend
(src/frontend/electron-react/src/App.js, paginated-albums revision),
together with proofs of the specified properties.
-/

namespace SmartPhoto

/-- `TagInfo` record shape of a tag association, as consumed by the UI. -/
structure TagInfo where
  id : Nat
  name : String
  is_ai_generated : Bool
  confidence : Option Rat
deriving DecidableEq, Repr

/-- `Photo` record shape as consumed by the UI (App.js JSDoc typedef). -/
structure Photo where
  id : Nat
  file_path : String
  original_filename : Option String
  capture_date : Option String
  camera_model : Option String
  thumbnail_path : Option String
  date_added : String
  rating : Nat
  associated_tags : List TagInfo
deriving DecidableEq, Repr

/-!
## Entity lock registry

App.js keeps per-entity in-flight flags in two keyed maps:
`ratingLoading` (keyed by photo id, set in `handleRatePhoto`) and
`tagLoading` (keyed by the string `photoId` in `handleAddTag` and by the
string `photoId-tagId` in `handleRemoveTag`).  The `StarRating` component
suppresses the click when the flag is held
(`onClick={() => !isLoading && onRate(photoId, starValue)}`).
We reify the two maps as one registry from composite keys to booleans.
-/

/-- A lock key: a bare photo id for rating mutations (`ratingLoading`),
or a string key for tag mutations (`tagLoading`). -/
inductive LockKey
  | rating (photoId : Nat)
  | tagOp (key : String)
deriving DecidableEq

/-- The registry of in-flight flags (`ratingLoading` / `tagLoading` maps);
an absent key reads as `false`, as in the JS object maps. -/
def LockRegistry : Type := LockKey → Bool

/-- Acquire the flag for `k`: returns `false` and leaves the registry
unchanged when the key is already held, otherwise returns `true` and
records the key (the `setRatingLoading(prev => (... [photoId]: true ...))`
write guarded by the UI's held-flag check). -/
def acquire (reg : LockRegistry) (k : LockKey) : Bool × LockRegistry :=
  if reg k then (false, reg)
  else (true, fun j => if j = k then true else reg j)

/-- Release the flag for `k` unconditionally
(the `finally` branch `set...Loading(prev => (... [key]: false ...))`). -/
def release (reg : LockRegistry) (k : LockKey) : LockRegistry :=
  fun j => if j = k then false else reg j

/-- One star click on photo `photoId`: the `StarRating` guard drops the
click when the rating flag is held; otherwise `handleRatePhoto` sets the
flag and issues exactly one remote rate call (counted in `calls`). -/
def starClick (reg : LockRegistry) (calls : Nat) (photoId : Nat) :
    LockRegistry × Nat :=
  match acquire reg (LockKey.rating photoId) with
  | (ok, reg') => if ok then (reg', calls + 1) else (reg', calls)

/-!
## Mutation completion handlers

Completion behaviour of `handleRatePhoto`, `handleAddTag` and
`handleRemoveTag` once the remote call settles: the success branch, the
`catch` branch, and the guaranteed `finally` branch releasing the flag.
`handleAddTag` / `handleRemoveTag` trigger full refetches
(`fetchPhotos(); fetchAllTags();`) on success, while `handleRatePhoto`
patches the one record in place via `prevPhotos.map`.
-/

/-- Side-effect requests issued by a completion handler. -/
structure Effects where
  refetchPhotos : Bool
  refetchAllTags : Bool
deriving DecidableEq, Repr

/-- The slice of UI state touched by the single-entity mutation handlers. -/
structure UIState where
  photos : List Photo
  errorMsg : Option String
  locks : LockRegistry

/-- Completion of `handleRatePhoto`: on success the response record
replaces the matching entry in place (`prevPhotos.map`), on failure the
scoped error is surfaced; the `finally` branch releases the rating flag. -/
def handleRatePhotoComplete (s : UIState) (photoId : Nat)
    (res : Except String Photo) : UIState × Effects :=
  match res with
  | Except.ok updated =>
    ({ photos := s.photos.map (fun p => if p.id = photoId then updated else p),
       errorMsg := none,
       locks := release s.locks (LockKey.rating photoId) },
     { refetchPhotos := false, refetchAllTags := false })
  | Except.error d =>
    ({ photos := s.photos,
       errorMsg := some ("Failed to rate photo: " ++ d),
       locks := release s.locks (LockKey.rating photoId) },
     { refetchPhotos := false, refetchAllTags := false })

/-- Completion of `handleAddTag`: success triggers `fetchPhotos()` and
`fetchAllTags()` (full refetches, no in-place patch), failure surfaces the
scoped error; the `finally` branch releases the tag flag keyed by the
photo id. -/
def handleAddTagComplete (s : UIState) (photoId : Nat)
    (res : Except String Unit) : UIState × Effects :=
  match res with
  | Except.ok _ =>
    ({ photos := s.photos,
       errorMsg := none,
       locks := release s.locks (LockKey.tagOp (toString photoId)) },
     { refetchPhotos := true, refetchAllTags := true })
  | Except.error d =>
    ({ photos := s.photos,
       errorMsg := some ("Failed to add tag: " ++ d),
       locks := release s.locks (LockKey.tagOp (toString photoId)) },
     { refetchPhotos := false, refetchAllTags := false })

/-- Completion of `handleRemoveTag`: success triggers full refetches,
failure surfaces the scoped error; the `finally` branch releases the tag
flag keyed by the string `photoId-tagId`. -/
def handleRemoveTagComplete (s : UIState) (photoId tagId : Nat)
    (res : Except String Unit) : UIState × Effects :=
  match res with
  | Except.ok _ =>
    ({ photos := s.photos,
       errorMsg := none,
       locks := release s.locks
         (LockKey.tagOp (toString photoId ++ "-" ++ toString tagId)) },
     { refetchPhotos := true, refetchAllTags := true })
  | Except.error d =>
    ({ photos := s.photos,
       errorMsg := some ("Failed to remove tag: " ++ d),
       locks := release s.locks
         (LockKey.tagOp (toString photoId ++ "-" ++ toString tagId)) },
     { refetchPhotos := false, refetchAllTags := false })

/-!
## Selection set and bulk album requests
-/

/-- `togglePhotoSelection` from App.js:
drop every occurrence of the id when present, append it when absent. -/
def togglePhotoSelection (sel : List Nat) (photoId : Nat) : List Nat :=
  if sel.contains photoId then sel.filter (fun i => i != photoId)
  else sel ++ [photoId]

/-- The request body of `POST /api/albums/(albumId)/photos`. -/
structure BulkAddRequest where
  albumId : Nat
  image_ids : List Nat
deriving DecidableEq, Repr

/-- The issuance decision of `handleAddPhotosToAlbum`: the handler
returns early when `selectedPhotoIds.length === 0`, otherwise posts the
whole id list as `image_ids` in a single request. -/
def bulkAddRequest (selectedPhotoIds : List Nat) (albumId : Nat) :
    Option BulkAddRequest :=
  if selectedPhotoIds.length = 0 then none
  else some { albumId := albumId, image_ids := selectedPhotoIds }

/-!
## Debounced free-text tag filter

`useDebounce(value, delay)` schedules `setTimeout(() => setDebouncedValue(value), delay)`
on every value change and clears the previous timer in the effect cleanup.
We model a sequence of timed edits `(time, value)` with strictly ordered
times; the timer of an edit fires unless a further edit arrives strictly
before `time + delay`.
-/

/-- The debounced-value updates that actually fire for a sequence of
timed edits: each edit schedules a timer at `time + delay`, cancelled when
the next edit arrives before that deadline (`clearTimeout` in the
`useDebounce` cleanup). -/
def debounceFires (delay : Nat) : List (Nat × String) → List (Nat × String)
  | [] => []
  | [(t, v)] => [(t + delay, v)]
  | (t, v) :: (t2, v2) :: rest =>
    if t2 < t + delay then debounceFires delay ((t2, v2) :: rest)
    else (t + delay, v) :: debounceFires delay ((t2, v2) :: rest)

/-- Every two consecutive edits of the sequence are separated by less than
the debounce window. -/
def rapidEdits (delay : Nat) : List (Nat × String) → Bool
  | [] => true
  | [_] => true
  | a :: b :: rest => (b.1 < a.1 + delay) && rapidEdits delay (b :: rest)

/-- The `tag_names` request parameter derived from a debounced tag-filter
value in `fetchPhotos`: trim, split on commas, trim each part, drop empty
parts; absent entirely when the trimmed value is empty. -/
def tagNamesParam (debouncedTagNames : String) : Option (List String) :=
  let trimmedTagNames := debouncedTagNames.trim
  if trimmedTagNames ≠ "" then
    some (((trimmedTagNames.splitOn ",").map String.trim).filter
      (fun tag => tag != ""))
  else none

/-!
## Filter, sort and page criteria

The fetch effect (`useEffect` over `fetchPhotos`) re-runs exactly when one
of the `useCallback` dependencies of `fetchPhotos` changes:
`currentPage, pageSize, sortBy, sortOrder, filterDateStart, filterDateEnd,
filterCameraModels, debouncedTagNames, filterRatingMin`.  Every filter
control except the free-text tag input also calls
`handleFilterChange()` (= `setCurrentPage(1)`); the sort handlers call
`setCurrentPage(1)` themselves.  The raw tag input only feeds the
debouncer, which is not an immediate dependency.
-/

/-- The criteria slice of App state read by `fetchPhotos`. -/
structure QueryState where
  sortBy : String
  sortOrder : String
  currentPage : Nat
  filterDateStart : String
  filterDateEnd : String
  filterRatingMin : Int
  filterCameraModels : List String
  filterTagNames : String
deriving DecidableEq, Repr

/-- One UI criteria event, one per onChange handler of the controls. -/
inductive CriteriaEvent
  | dateStartChange (v : String)
  | dateEndChange (v : String)
  | minRatingChange (v : Int)
  | cameraModelToggle (model : String) (checked : Bool)
  | tagNamesChange (v : String)
  | sortByChange (v : String)
  | sortOrderChange (v : String)
deriving DecidableEq, Repr

/-- The camera-model checkbox update:
`checked ? [...prev, value] : prev.filter(m => m !== value)`. -/
def applyCameraToggle (model : String) (checked : Bool)
    (prev : List String) : List String :=
  if checked then prev ++ [model] else prev.filter (fun m => m != model)

/-- Apply a criteria event to the state, exactly as the onChange handlers
do: every control except the free-text tag input resets the page to 1
(`handleFilterChange` / the sort handlers). -/
def applyCriteriaEvent (e : CriteriaEvent) (s : QueryState) : QueryState :=
  match e with
  | CriteriaEvent.dateStartChange v =>
    { s with filterDateStart := v, currentPage := 1 }
  | CriteriaEvent.dateEndChange v =>
    { s with filterDateEnd := v, currentPage := 1 }
  | CriteriaEvent.minRatingChange v =>
    { s with filterRatingMin := v, currentPage := 1 }
  | CriteriaEvent.cameraModelToggle m c =>
    { s with filterCameraModels := applyCameraToggle m c s.filterCameraModels,
             currentPage := 1 }
  | CriteriaEvent.tagNamesChange v =>
    { s with filterTagNames := v }
  | CriteriaEvent.sortByChange v =>
    { s with sortBy := v, currentPage := 1 }
  | CriteriaEvent.sortOrderChange v =>
    { s with sortOrder := v, currentPage := 1 }

/-- The dependency tuple of the `fetchPhotos` callback; the fetch effect
re-runs (issuing an immediate fetch) exactly when this value changes. -/
structure FetchDeps where
  page : Nat
  sortBy : String
  sortOrder : String
  dateStart : String
  dateEnd : String
  cameraModels : List String
  debouncedTags : String
  ratingMin : Int
deriving DecidableEq, Repr

/-- Project the fetch dependencies out of the state (the debounced tag
value is a separate piece of state fed by the debouncer). -/
def fetchDeps (s : QueryState) (debouncedTags : String) : FetchDeps :=
  { page := s.currentPage, sortBy := s.sortBy, sortOrder := s.sortOrder,
    dateStart := s.filterDateStart, dateEnd := s.filterDateEnd,
    cameraModels := s.filterCameraModels, debouncedTags := debouncedTags,
    ratingMin := s.filterRatingMin }

/-- Whether the event is an edit of the free-text tag field. -/
def isTagEdit : CriteriaEvent → Bool
  | CriteriaEvent.tagNamesChange _ => true
  | _ => false

/-- The event actually changes its criterion (controls only fire onChange
on an actual change). -/
def criterionChanged : CriteriaEvent → QueryState → Prop
  | CriteriaEvent.dateStartChange v, s => v ≠ s.filterDateStart
  | CriteriaEvent.dateEndChange v, s => v ≠ s.filterDateEnd
  | CriteriaEvent.minRatingChange v, s => v ≠ s.filterRatingMin
  | CriteriaEvent.cameraModelToggle m c, s =>
    applyCameraToggle m c s.filterCameraModels ≠ s.filterCameraModels
  | CriteriaEvent.tagNamesChange v, s => v ≠ s.filterTagNames
  | CriteriaEvent.sortByChange v, s => v ≠ s.sortBy
  | CriteriaEvent.sortOrderChange v, s => v ≠ s.sortOrder

instance (e : CriteriaEvent) (s : QueryState) :
    Decidable (criterionChanged e s) := by
  cases e <;> (simp only [criterionChanged]; infer_instance)

/-!
## Date handling of `fetchPhotos`

`new Date("YYYY-MM-DD")` parses a date-only string as UTC midnight;
`endDate.setHours(23, 59, 59, 999)` sets the time-of-day fields in the
runtime's LOCAL timezone; `toISOString()` serializes back in UTC.  We
model absolute time as milliseconds since the Unix epoch (an `Int`) and
the runtime timezone as a fixed offset in minutes east of UTC.
-/

/-- Days since the Unix epoch of a proleptic-Gregorian civil date
(standard civil-from-days conversion). -/
def daysFromCivil (y : Int) (m d : Nat) : Int :=
  let yAdj : Int := if m ≤ 2 then y - 1 else y
  let era : Int := (if 0 ≤ yAdj then yAdj else yAdj - 399) / 400
  let yoe : Int := yAdj - era * 400
  let mp : Int := (Int.ofNat m + 9) % 12
  let doy : Int := (153 * mp + 2) / 5 + Int.ofNat d - 1
  let doe : Int := yoe * 365 + yoe / 4 - yoe / 100 + doy
  era * 146097 + doe - 719468

/-- Civil date (year, month, day) from days since the Unix epoch
(standard days-from-civil inverse). -/
def civilFromDays (z0 : Int) : Int × Nat × Nat :=
  let z := z0 + 719468
  let era : Int := (if 0 ≤ z then z else z - 146096) / 146097
  let doe : Int := z - era * 146097
  let yoe : Int := (doe - doe / 1460 + doe / 36524 - doe / 146096) / 365
  let doy : Int := doe - (365 * yoe + yoe / 4 - yoe / 100)
  let mp : Int := (5 * doy + 2) / 153
  let d : Int := doy - (153 * mp + 2) / 5 + 1
  let m : Int := if mp < 10 then mp + 3 else mp - 9
  (yoe + era * 400 + (if m ≤ 2 then 1 else 0), m.toNat, d.toNat)

/-- Split a character list on a separator character. -/
def splitOnCharAux (c : Char) : List Char → List Char → List (List Char)
  | [], acc => [acc.reverse]
  | x :: xs, acc =>
    if x = c then acc.reverse :: splitOnCharAux c xs []
    else splitOnCharAux c xs (x :: acc)

/-- Split a character list on a separator character. -/
def splitOnChar (c : Char) (l : List Char) : List (List Char) :=
  splitOnCharAux c l []

/-- Read a nonempty all-digit character list as a natural number. -/
def digitsToNat? (l : List Char) : Option Nat :=
  if l ≠ [] ∧ l.all Char.isDigit then
    some (l.foldl (fun n c => n * 10 + (c.toNat - 48)) 0)
  else none

/-- Parse a `YYYY-MM-DD` date-only string into its numeric fields. -/
def parseDateOnly (s : String) : Option (Nat × Nat × Nat) :=
  match (splitOnChar '-' s.data).map digitsToNat? with
  | [some y, some m, some d] =>
    if 1 ≤ m ∧ m ≤ 12 ∧ 1 ≤ d ∧ d ≤ 31 then some (y, m, d) else none
  | _ => none

/-- `new Date(s)` on a date-only string: UTC midnight of that civil date,
in milliseconds since the epoch; `none` when the string is not a valid
date (the handler catches and drops the parameter). -/
def jsDateFromDateOnly (s : String) : Option Int :=
  (parseDateOnly s).map
    (fun t => daysFromCivil (Int.ofNat t.1) t.2.1 t.2.2 * 86400000)

/-- Zero-pad a natural number to the given width. -/
def padNum (width n : Nat) : String :=
  let s := toString n
  String.mk (List.replicate (width - s.length) '0') ++ s

/-- `Date.prototype.toISOString`: render a millisecond timestamp as
`YYYY-MM-DDTHH:MM:SS.mmmZ` (UTC). -/
def toISOString (t : Int) : String :=
  let days := Int.fdiv t 86400000
  let msod := (t - days * 86400000).toNat
  let c := civilFromDays days
  let hh := msod / 3600000
  let mi := msod / 60000 % 60
  let ss := msod / 1000 % 60
  let ms := msod % 1000
  padNum 4 c.1.toNat ++ "-" ++ padNum 2 c.2.1 ++ "-" ++ padNum 2 c.2.2 ++
    "T" ++ padNum 2 hh ++ ":" ++ padNum 2 mi ++ ":" ++ padNum 2 ss ++
    "." ++ padNum 3 ms ++ "Z"

/-- `Date.prototype.setHours(h, mi, s, ms)`: reinterpret the timestamp in
the runtime's local timezone (offset `tzOffsetMin` minutes east of UTC),
replace the time-of-day fields, and convert back to UTC milliseconds. -/
def setHoursJS (tzOffsetMin : Int) (t : Int) (h mi s ms : Nat) : Int :=
  let localMs := t + tzOffsetMin * 60000
  let dayStart := (Int.fdiv localMs 86400000) * 86400000
  dayStart + Int.ofNat (((h * 60 + mi) * 60 + s) * 1000 + ms)
    - tzOffsetMin * 60000

/-- The date and rating entries of the request descriptor built by
`fetchPhotos`. -/
structure PhotoQueryParams where
  date_start : Option String
  date_end : Option String
  rating_min : Option Int
deriving DecidableEq, Repr

/-- Build the date/rating filter parameters exactly as `fetchPhotos` does:
`date_start = new Date(filterDateStart).toISOString()`;
`date_end` from `new Date(filterDateEnd)` with
`setHours(23, 59, 59, 999)` applied (local time) before `toISOString()`;
`rating_min` included when `filterRatingMin > 0 && filterRatingMin <= 5`. -/
def buildFilterParams (tzOffsetMin : Int)
    (filterDateStart filterDateEnd : String) (filterRatingMin : Int) :
    PhotoQueryParams :=
  let ds : Option String :=
    if filterDateStart ≠ "" then
      (jsDateFromDateOnly filterDateStart).map toISOString
    else none
  let de : Option String :=
    if filterDateEnd ≠ "" then
      (jsDateFromDateOnly filterDateEnd).map
        (fun t => toISOString (setHoursJS tzOffsetMin t 23 59 59 999))
    else none
  let rm : Option Int :=
    if 0 < filterRatingMin ∧ filterRatingMin ≤ 5 then some filterRatingMin
    else none
  { date_start := ds, date_end := de, rating_min := rm }

/-!
## Applying a photos fetch response

`fetchPhotos` branches on `response.data.items`: a paginated response
replaces photos and pagination metadata and (when non-empty) recomputes
the camera-model list; a flat array only replaces the photo list.
-/

/-- First-occurrence deduplication, as `[...new Set(xs)]` in JS. -/
def jsSetDedupAux (seen : List String) : List String → List String
  | [] => []
  | x :: xs =>
    if seen.contains x then jsSetDedupAux seen xs
    else x :: jsSetDedupAux (x :: seen) xs

/-- `[...new Set(xs)]`. -/
def jsSetDedup (l : List String) : List String := jsSetDedupAux [] l

/-- Insert into a sorted list of strings. -/
def insertSorted (x : String) : List String → List String
  | [] => [x]
  | y :: ys => if x ≤ y then x :: y :: ys else y :: insertSorted x ys

/-- `Array.prototype.sort()` on strings: ascending lexicographic order. -/
def sortStrings : List String → List String
  | [] => []
  | x :: xs => insertSorted x (sortStrings xs)

/-- Shape of a `GET /api/photos/` response body: either the paginated
wrapper with `items` and `meta`, or a flat photo array. -/
inductive PhotosResponse
  | paginated (items : List Photo) (total_pages total_items : Nat)
  | flat (photos : List Photo)

/-- The slice of App state written by the success branch of
`fetchPhotos`. -/
structure PhotosViewState where
  photos : List Photo
  totalPages : Nat
  totalItems : Nat
  availableCameraModels : List String
deriving DecidableEq, Repr

/-- Apply a successful fetch response, exactly as the success branch of
`fetchPhotos` does: the paginated branch replaces photos and metadata and,
when `items` is non-empty, replaces the camera-model list with the sorted
deduplicated truthy camera models of the page; the flat branch only runs
`setPhotos(response.data)`. -/
def applyPhotosResponse (s : PhotosViewState) (r : PhotosResponse) :
    PhotosViewState :=
  match r with
  | PhotosResponse.paginated items tp ti =>
    let s1 : PhotosViewState :=
      { s with photos := items, totalPages := tp, totalItems := ti }
    if items.length > 0 then
      { s1 with availableCameraModels :=
          sortStrings (jsSetDedup
            ((items.filterMap Photo.camera_model).filter (fun c => c != ""))) }
    else s1
  | PhotosResponse.flat ps => { s with photos := ps }

/-!
## Export job orchestrator

Modelled from the spec: the `ExportJobOrchestrator` component (spec
section 4.5) has no implementation under `src/` — the export flow is a
planned Phase 5 feature — so its state machine is modelled from the
spec's words: Idle, Submitting, Polling, terminal states, a single owned
timer cleared on teardown, and callbacks that a torn-down orchestrator
never runs.
-/

/-- Modelled from the spec: server-side export job status. -/
inductive JobStatus
  | queued
  | processing
  | completed
  | failed
deriving DecidableEq, Repr

/-- Modelled from the spec: the orchestrator's local phase. -/
inductive OrchPhase
  | idle
  | submitting
  | polling (jobId : Nat)
  | done
  | errored
deriving DecidableEq, Repr

/-- Modelled from the spec: orchestrator state — local phase, the single
owned timer handle, the teardown flag, and counters for issued polls,
triggered downloads and UI mutations. -/
structure OrchState where
  phase : OrchPhase
  timerActive : Bool
  tornDown : Bool
  pollCount : Nat
  downloadCount : Nat
  uiWriteCount : Nat
deriving DecidableEq, Repr

/-- Modelled from the spec: events driving the orchestrator. -/
inductive OrchEvent
  | submit
  | submitOk (jobId : Nat)
  | submitFail
  | timerTick
  | pollResult (st : JobStatus)
  | teardown
deriving DecidableEq, Repr

/-- Modelled from the spec: one orchestrator transition.  Teardown clears
the timer and cancels all callbacks: a torn-down orchestrator ignores
every event (no polls, no downloads, no UI writes).  While polling, each
timer tick issues one status poll; a completed result stops the timer and
triggers the download exactly once; a failed result stops the timer and
surfaces the error; a submit while busy is rejected locally. -/
def orchStep (s : OrchState) (e : OrchEvent) : OrchState :=
  if s.tornDown then s
  else
    match e with
    | OrchEvent.teardown => { s with tornDown := true, timerActive := false }
    | OrchEvent.submit =>
      match s.phase with
      | OrchPhase.idle =>
        { s with phase := OrchPhase.submitting,
                 uiWriteCount := s.uiWriteCount + 1 }
      | _ => s
    | OrchEvent.submitOk j =>
      match s.phase with
      | OrchPhase.submitting =>
        { s with phase := OrchPhase.polling j, timerActive := true,
                 uiWriteCount := s.uiWriteCount + 1 }
      | _ => s
    | OrchEvent.submitFail =>
      match s.phase with
      | OrchPhase.submitting =>
        { s with phase := OrchPhase.idle,
                 uiWriteCount := s.uiWriteCount + 1 }
      | _ => s
    | OrchEvent.timerTick =>
      match s.phase with
      | OrchPhase.polling _ =>
        if s.timerActive then { s with pollCount := s.pollCount + 1 } else s
      | _ => s
    | OrchEvent.pollResult st =>
      match s.phase with
      | OrchPhase.polling _ =>
        match st with
        | JobStatus.completed =>
          { s with phase := OrchPhase.done, timerActive := false,
                   downloadCount := s.downloadCount + 1,
                   uiWriteCount := s.uiWriteCount + 1 }
        | JobStatus.failed =>
          { s with phase := OrchPhase.errored, timerActive := false,
                   uiWriteCount := s.uiWriteCount + 1 }
        | _ => { s with uiWriteCount := s.uiWriteCount + 1 }
      | _ => s

/-- Modelled from the spec: run the orchestrator over an event trace. -/
def orchRun (s : OrchState) (evs : List OrchEvent) : OrchState :=
  evs.foldl orchStep s

/-- A sample photo record, used to instantiate theorems with hypotheses. -/
def samplePhoto : Photo :=
  { id := 1, file_path := "a.jpg", original_filename := none,
    capture_date := none, camera_model := none, thumbnail_path := none,
    date_added := "2024-01-01", rating := 0, associated_tags := [] }

/-- A sample query state, used to instantiate theorems with hypotheses. -/
def sampleQueryState : QueryState :=
  { sortBy := "capture_date", sortOrder := "desc", currentPage := 3,
    filterDateStart := "", filterDateEnd := "", filterRatingMin := 0,
    filterCameraModels := [], filterTagNames := "" }

/-!
## Theorems
-/

/-- C1: for every lock key, a second acquire without an intervening
release returns `false` and the star-click UI mutation is suppressed (the
remote-call count does not grow on the second click); after a release a
subsequent acquire returns `true` again, and releasing an unheld key is a
no-op rather than an error. -/
theorem entityLock_contract (reg : LockRegistry) (k : LockKey)
    (calls photoId : Nat) (hfree : reg k = false) :
    (acquire reg k).1 = true
    ∧ (acquire (acquire reg k).2 k).1 = false
    ∧ (acquire (release (acquire reg k).2 k) k).1 = true
    ∧ release reg k = reg
    ∧ (starClick (starClick reg calls photoId).1
        (starClick reg calls photoId).2 photoId).2
      = (starClick reg calls photoId).2 := by
  refine ⟨?_, ?_, ?_, ?_, ?_⟩
  · simp [acquire, hfree]
  · simp [acquire, hfree]
  · simp [acquire, release, hfree]
  · funext j
    by_cases hj : j = k
    · subst hj; simp [release, hfree]
    · simp [release, hj]
  · by_cases h : reg (LockKey.rating photoId) = true
    · simp [starClick, acquire, h]
    · simp only [Bool.not_eq_true] at h
      simp [starClick, acquire, h]

/-- Witness for C1 at a concrete empty registry and key. -/
theorem entityLock_contract_witness :
    ((fun _ => false : LockRegistry) (LockKey.rating 0) = false)
    ∧ ((acquire (fun _ => false : LockRegistry) (LockKey.rating 0)).1 = true
      ∧ (acquire (acquire (fun _ => false : LockRegistry)
          (LockKey.rating 0)).2 (LockKey.rating 0)).1 = false
      ∧ (acquire (release (acquire (fun _ => false : LockRegistry)
          (LockKey.rating 0)).2 (LockKey.rating 0)) (LockKey.rating 0)).1 = true
      ∧ release (fun _ => false : LockRegistry) (LockKey.rating 0)
          = (fun _ => false : LockRegistry)
      ∧ (starClick (starClick (fun _ => false : LockRegistry) 0 0).1
          (starClick (fun _ => false : LockRegistry) 0 0).2 0).2
        = (starClick (fun _ => false : LockRegistry) 0 0).2) :=
  ⟨rfl, entityLock_contract (fun _ => false) (LockKey.rating 0) 0 0 rfl⟩

/-- C2: for every nonempty sequence of free-text tag edits in which
consecutive edits are separated by less than the debounce window, no
debounced update (hence no fetch) fires before the quiet interval elapses
after the last edit, exactly one fires — at last-edit time plus the
window — and the `tag_names` parameter of the resulting fetch is derived
from the final edited value. -/
theorem debounce_single_fetch (delay : Nat) (e : Nat × String)
    (es : List (Nat × String)) (h : rapidEdits delay (e :: es) = true) :
    debounceFires delay (e :: es)
      = [((es.getLastD e).1 + delay, (es.getLastD e).2)]
    ∧ (debounceFires delay (e :: es)).map (fun f => tagNamesParam f.2)
      = [tagNamesParam (es.getLastD e).2] := by
  have main : ∀ (es : List (Nat × String)) (e : Nat × String),
      rapidEdits delay (e :: es) = true →
      debounceFires delay (e :: es)
        = [((es.getLastD e).1 + delay, (es.getLastD e).2)] := by
    intro es
    induction es with
    | nil => intro e _; rfl
    | cons b rest ih =>
      intro e he
      obtain ⟨t, v⟩ := e
      obtain ⟨t2, v2⟩ := b
      simp only [rapidEdits, Bool.and_eq_true, decide_eq_true_eq] at he
      obtain ⟨hlt, hrest⟩ := he
      rw [List.getLastD_cons]
      simpa [debounceFires, hlt] using ih ⟨t2, v2⟩ hrest
  have h1 := main es e h
  exact ⟨h1, by rw [h1]; rfl⟩

/-- Witness for C2 at a concrete rapid three-edit sequence. -/
theorem debounce_single_fetch_witness :
    rapidEdits 500 ((0, "be") :: [(100, "bea"), (200, "beach")]) = true
    ∧ (debounceFires 500 ((0, "be") :: [(100, "bea"), (200, "beach")])
        = [(([(100, "bea"), (200, "beach")].getLastD (0, "be")).1 + 500,
            ([(100, "bea"), (200, "beach")].getLastD (0, "be")).2)]
      ∧ (debounceFires 500
          ((0, "be") :: [(100, "bea"), (200, "beach")])).map
            (fun f => tagNamesParam f.2)
        = [tagNamesParam ([(100, "bea"), (200, "beach")].getLastD (0, "be")).2]) :=
  ⟨rfl, debounce_single_fetch 500 (0, "be") [(100, "bea"), (200, "beach")] rfl⟩

/-- C3: every actual change to a non-free-text criterion (dates, minimum
rating, camera-model set, sort key, sort order) resets the page index to 1
and changes the `fetchPhotos` dependency tuple, so the fetch effect
re-runs immediately with page 1 — no debounce is involved. -/
theorem criteria_change_immediate_fetch (e : CriteriaEvent) (s : QueryState)
    (debouncedTags : String) (hTag : isTagEdit e = false)
    (hChange : criterionChanged e s) :
    (applyCriteriaEvent e s).currentPage = 1
    ∧ fetchDeps (applyCriteriaEvent e s) debouncedTags
        ≠ fetchDeps s debouncedTags := by
  cases e with
  | dateStartChange v =>
    exact ⟨rfl, fun hEq => hChange (congrArg FetchDeps.dateStart hEq)⟩
  | dateEndChange v =>
    exact ⟨rfl, fun hEq => hChange (congrArg FetchDeps.dateEnd hEq)⟩
  | minRatingChange v =>
    exact ⟨rfl, fun hEq => hChange (congrArg FetchDeps.ratingMin hEq)⟩
  | cameraModelToggle m c =>
    exact ⟨rfl, fun hEq => hChange (congrArg FetchDeps.cameraModels hEq)⟩
  | tagNamesChange v => simp [isTagEdit] at hTag
  | sortByChange v =>
    exact ⟨rfl, fun hEq => hChange (congrArg FetchDeps.sortBy hEq)⟩
  | sortOrderChange v =>
    exact ⟨rfl, fun hEq => hChange (congrArg FetchDeps.sortOrder hEq)⟩

/-- Witness for C3 at a concrete date-start change from page 3. -/
theorem criteria_change_immediate_fetch_witness :
    isTagEdit (CriteriaEvent.dateStartChange "2024-01-01") = false
    ∧ criterionChanged (CriteriaEvent.dateStartChange "2024-01-01")
        sampleQueryState
    ∧ ((applyCriteriaEvent (CriteriaEvent.dateStartChange "2024-01-01")
          sampleQueryState).currentPage = 1
      ∧ fetchDeps (applyCriteriaEvent
            (CriteriaEvent.dateStartChange "2024-01-01") sampleQueryState) ""
          ≠ fetchDeps sampleQueryState "") :=
  ⟨rfl, by decide,
    criteria_change_immediate_fetch (CriteriaEvent.dateStartChange "2024-01-01")
      sampleQueryState "" rfl (by decide)⟩

/-- C4: when the remote call of a single-entity mutation (rating, tag add,
tag remove) fails, the photo collection is left unchanged, an error
message scoped to that operation is surfaced, and the entity's lock flag
is released; on the success path the flag is released as well. -/
theorem mutation_failure_frame (s : UIState) (pid tid : Nat) (d : String)
    (p : Photo) :
    (handleRatePhotoComplete s pid (Except.error d)).1.photos = s.photos
    ∧ (handleRatePhotoComplete s pid (Except.error d)).1.errorMsg
        = some ("Failed to rate photo: " ++ d)
    ∧ (handleRatePhotoComplete s pid (Except.error d)).1.locks
        (LockKey.rating pid) = false
    ∧ (handleRatePhotoComplete s pid (Except.ok p)).1.locks
        (LockKey.rating pid) = false
    ∧ (handleAddTagComplete s pid (Except.error d)).1.photos = s.photos
    ∧ (handleAddTagComplete s pid (Except.error d)).1.errorMsg
        = some ("Failed to add tag: " ++ d)
    ∧ (handleAddTagComplete s pid (Except.error d)).1.locks
        (LockKey.tagOp (toString pid)) = false
    ∧ (handleAddTagComplete s pid (Except.ok ())).1.locks
        (LockKey.tagOp (toString pid)) = false
    ∧ (handleRemoveTagComplete s pid tid (Except.error d)).1.photos = s.photos
    ∧ (handleRemoveTagComplete s pid tid (Except.error d)).1.errorMsg
        = some ("Failed to remove tag: " ++ d)
    ∧ (handleRemoveTagComplete s pid tid (Except.error d)).1.locks
        (LockKey.tagOp (toString pid ++ "-" ++ toString tid)) = false
    ∧ (handleRemoveTagComplete s pid tid (Except.ok ())).1.locks
        (LockKey.tagOp (toString pid ++ "-" ++ toString tid)) = false := by
  refine ⟨rfl, rfl, ?_, ?_, rfl, rfl, ?_, ?_, rfl, rfl, ?_, ?_⟩ <;>
    simp [handleRatePhotoComplete, handleAddTagComplete,
      handleRemoveTagComplete, release]

/-- C5: once the orchestrator is torn down — at any point, in particular
while polling — no subsequent event trace can increase its poll count,
trigger a download, or mutate UI state. -/
theorem orchestrator_dead_after_teardown (s : OrchState)
    (evs : List OrchEvent) :
    (orchRun (orchStep s OrchEvent.teardown) evs).pollCount
        = (orchStep s OrchEvent.teardown).pollCount
    ∧ (orchRun (orchStep s OrchEvent.teardown) evs).downloadCount
        = (orchStep s OrchEvent.teardown).downloadCount
    ∧ (orchRun (orchStep s OrchEvent.teardown) evs).uiWriteCount
        = (orchStep s OrchEvent.teardown).uiWriteCount := by
  have hstop : ∀ (t : OrchState), t.tornDown = true →
      ∀ (l : List OrchEvent), orchRun t l = t := by
    intro t ht l
    induction l with
    | nil => rfl
    | cons ev l ih =>
      have hstep : orchStep t ev = t := by simp [orchStep, ht]
      show List.foldl orchStep (orchStep t ev) l = t
      rw [hstep]
      exact ih
  have htd : (orchStep s OrchEvent.teardown).tornDown = true := by
    by_cases h : s.tornDown <;> simp [orchStep, h]
  rw [hstop _ htd evs]
  exact ⟨rfl, rfl, rfl⟩

/-- C6: toggling the same photo id twice returns the selection to exactly
its original membership. -/
theorem togglePhotoSelection_twice_mem (sel : List Nat) (x y : Nat) :
    y ∈ togglePhotoSelection (togglePhotoSelection sel x) x ↔ y ∈ sel := by
  by_cases hx : x ∈ sel
  · have h1 : togglePhotoSelection sel x = sel.filter (fun i => i != x) := by
      simp [togglePhotoSelection, List.elem_iff, hx]
    have h2 : x ∉ sel.filter (fun i => i != x) := by
      simp [List.mem_filter]
    rw [h1]
    have h3 : togglePhotoSelection (sel.filter (fun i => i != x)) x
        = sel.filter (fun i => i != x) ++ [x] := by
      simp [togglePhotoSelection, List.elem_iff, h2]
    rw [h3]
    simp only [List.mem_append, List.mem_filter, List.mem_singleton,
      bne_iff_ne, ne_eq]
    constructor
    · rintro (⟨hy, _⟩ | hy)
      · exact hy
      · rw [hy]; exact hx
    · intro hy
      by_cases hyx : y = x
      · exact Or.inr hyx
      · exact Or.inl ⟨hy, hyx⟩
  · have h1 : togglePhotoSelection sel x = sel ++ [x] := by
      simp [togglePhotoSelection, List.elem_iff, hx]
    have h2 : x ∈ sel ++ [x] := by simp
    have h3 : togglePhotoSelection (sel ++ [x]) x
        = (sel ++ [x]).filter (fun i => i != x) := by
      simp [togglePhotoSelection, List.elem_iff, h2]
    rw [h1, h3]
    simp only [List.filter_append, List.mem_append, List.mem_filter,
      bne_iff_ne, ne_eq]
    constructor
    · rintro (⟨hy, _⟩ | hy)
      · exact hy
      · simp at hy
    · intro hy
      by_cases hyx : y = x
      · exact absurd (hyx ▸ hy) hx
      · exact Or.inl ⟨hy, hyx⟩

/-- C7 counterexample: with 101 selected identifiers — exceeding the
claimed size bound of 100 — `handleAddPhotosToAlbum` still issues the
bulk request; no local size validation exists. -/
theorem bulk_size_bound_counterexample :
    100 < (List.range 101).length
    ∧ (bulkAddRequest (List.range 101) 1).isSome = true := by
  constructor
  · simp
  · rfl

/-- C7 (amended): a bulk add-to-album request is issued exactly when the
selection is nonempty — the empty selection never issues a request, and a
nonempty selection of any size is sent whole, with no local size bound. -/
theorem bulk_request_iff_nonempty (ids : List Nat) (a : Nat) :
    ((bulkAddRequest ids a).isSome ↔ ids ≠ [])
    ∧ (bulkAddRequest ids a).map (fun r => r.image_ids)
        = if ids.isEmpty then none else some ids := by
  cases ids with
  | nil => simp [bulkAddRequest]
  | cons h t => simp [bulkAddRequest]

/-- C8 counterexample: a successful tag-add mutation triggers a full
`fetchPhotos` refetch, contradicting the claim that no full refetch is
performed after a successful single-entity mutation. -/
theorem tag_mutation_refetch_counterexample :
    (handleAddTagComplete
      { photos := [], errorMsg := none, locks := fun _ => false } 1
      (Except.ok ())).2.refetchPhotos = true := rfl

/-- C8 (amended): a successful rating mutation patches the one matching
record in place — the length is preserved and every position holds its
old record unless that record's id is the mutated one — with no refetch;
successful tag add and tag remove instead trigger a full photos
refetch. -/
theorem rate_patch_in_place (s : UIState) (pid tid : Nat) (p : Photo)
    (i : Nat) :
    (handleRatePhotoComplete s pid (Except.ok p)).1.photos.length
        = s.photos.length
    ∧ (handleRatePhotoComplete s pid (Except.ok p)).1.photos[i]?
        = (s.photos[i]?).map (fun q => if q.id = pid then p else q)
    ∧ (handleRatePhotoComplete s pid (Except.ok p)).2.refetchPhotos = false
    ∧ (handleAddTagComplete s pid (Except.ok ())).2.refetchPhotos = true
    ∧ (handleRemoveTagComplete s pid tid (Except.ok ())).2.refetchPhotos
        = true := by
  refine ⟨?_, ?_, rfl, rfl, rfl⟩
  · simp [handleRatePhotoComplete]
  · simp [handleRatePhotoComplete, List.getElem?_map]

/-- C9 counterexample: in a runtime whose local timezone is two hours
ahead of UTC, the built descriptor's `date_end` is
`2024-01-31T21:59:59.999Z` — `setHours(23,59,59,999)` extends the day in
local time, not UTC — so the descriptor differs from the claimed one. -/
theorem fetch_params_tz_counterexample :
    buildFilterParams 120 "2024-01-01" "2024-01-31" 4
      ≠ { date_start := some "2024-01-01T00:00:00.000Z",
          date_end := some "2024-01-31T23:59:59.999Z",
          rating_min := some 4 }
    ∧ (buildFilterParams 120 "2024-01-01" "2024-01-31" 4).date_end
      = some "2024-01-31T21:59:59.999Z" := by
  constructor
  · decide
  · rfl

/-- C9 (amended): with the filter state date-start 2024-01-01, date-end
2024-01-31, rating-min 4, and a runtime local timezone of UTC (offset 0),
the built descriptor contains exactly
`date_start=2024-01-01T00:00:00.000Z`,
`date_end=2024-01-31T23:59:59.999Z`, `rating_min=4`; in general the end
date is extended to the last millisecond of its day in local time before
UTC serialization. -/
theorem fetch_params_utc_scenario :
    buildFilterParams 0 "2024-01-01" "2024-01-31" 4
      = { date_start := some "2024-01-01T00:00:00.000Z",
          date_end := some "2024-01-31T23:59:59.999Z",
          rating_min := some 4 } := by
  rfl

/-- C10: applying a fetch response that lacks the pagination wrapper
replaces the photo list with the flat array while leaving the pagination
metadata and the available camera-model list exactly as they were. -/
theorem flat_response_meta_unchanged (s : PhotosViewState)
    (ps : List Photo) :
    (applyPhotosResponse s (PhotosResponse.flat ps)).photos = ps
    ∧ (applyPhotosResponse s (PhotosResponse.flat ps)).totalPages
        = s.totalPages
    ∧ (applyPhotosResponse s (PhotosResponse.flat ps)).totalItems
        = s.totalItems
    ∧ (applyPhotosResponse s (PhotosResponse.flat ps)).availableCameraModels
        = s.availableCameraModels :=
  ⟨rfl, rfl, rfl, rfl⟩

end SmartPhoto
